import Mathlib

/-!
Verification of the LLMPostGeneration repository against its specification.

Python strings are embedded as lists of unicode code points (`Str`), Python
dictionaries that carry a fixed set of keys are embedded as structures with
`Option` fields for keys that may be absent, and fallible calls are embedded
as `Except`-valued functions.  Remote LLM and scraping services are opaque
oracles (`Str → Except Str Str`); the thread-pool completion order of the two
generator futures is an explicit schedule parameter.
-/

namespace PostGen

/-- A Python string, as its list of unicode code points. -/
abbrev Str := List Char

/-- The newline character, the separator used by both str.split and str.join
calls in the source. -/
def nl : Char := '\n'

/-- Whitespace test used by Python str.strip (ASCII whitespace characters). -/
def isPySpace (c : Char) : Bool :=
  c == ' ' || c == '\t' || c == '\n' || c == '\r' || c == '\x0b' || c == '\x0c'

/-- Python str.strip: remove leading and trailing whitespace. -/
def pyStrip (s : Str) : Str :=
  ((s.dropWhile isPySpace).reverse.dropWhile isPySpace).reverse

/-- Python sep.join(xs): concatenate the blocks of xs with sep between
consecutive blocks. -/
def pyJoin (sep : Str) : List Str → Str
  | [] => []
  | l :: ls =>
    match ls with
    | [] => l
    | _ :: _ => l ++ sep ++ pyJoin sep ls

/-- Python text.split(&#92;n): cut a string at every newline character.  The
result is always non-empty and its blocks contain no newline. -/
def pySplitLines : Str → List Str
  | [] => [[]]
  | c :: rest =>
    match pySplitLines rest with
    | [] => [[c]]
    | h :: t => if c = nl then [] :: h :: t else (c :: h) :: t

/-- Python pat in line: substring containment test, computed by scanning the
suffixes of the line. -/
def strHas (line pat : Str) : Bool :=
  line.tails.any fun t => pat.isPrefixOf t

/-- Python str(n) for a natural number. -/
def natStr (n : Nat) : Str := (Nat.repr n).data

/-! ### Scrapers: the code of scrape_linkedin_posts and scrape_x_posts up to
the remote call (src/scrapers/linkedin_scraper.py, src/scrapers/x_scraper.py).

Everything after the Apify actor call depends on the network, so the embedding
records which of the guard clauses fires, or that control reaches the remote
call.  `ScrapeOutcome.remoteCallIssued` means the function passed all of its
validation and issued the request to the scraping service. -/

/-- Outcome of the validation section of a scraper function. -/
inductive ScrapeOutcome where
  | configError (msg : Str)
  | inputError (msg : Str)
  | remoteCallIssued
deriving DecidableEq

/-- Python `not config.APIFY_API_TOKEN or config.APIFY_API_TOKEN ==
"your_apify_api_token_here"`; the token is None when the environment variable
is absent. -/
def tokenMissing (tok : Option Str) : Bool :=
  match tok with
  | none => true
  | some t => t.isEmpty || t == "your_apify_api_token_here".data

/-- Error message raised when the Apify credential is not configured. -/
def configErrMsg : Str :=
  ("APIFY_API_TOKEN not configured. " ++
    "Please set your Apify API token in the .env file").data

/-- Error message raised by scrape_x_posts when no selector is provided. -/
def xInputErrMsg : Str :=
  "Must provide at least one of: start_urls, search_terms, or twitter_handles".data

/-- Python truthiness of an optional list argument (None and the empty list
are falsy). -/
def listTruthy (o : Option (List Str)) : Bool :=
  match o with
  | none => false
  | some l => !l.isEmpty

/-- Validation section of scrape_linkedin_posts
(src/scrapers/linkedin_scraper.py lines 13-57): only the credential is
checked; the urls argument is not validated before the remote call. -/
def scrape_linkedin_posts (tok : Option Str) (urls : List Str) : ScrapeOutcome :=
  if tokenMissing tok then ScrapeOutcome.configError configErrMsg
  else ScrapeOutcome.remoteCallIssued

/-- Validation section of scrape_x_posts (src/scrapers/x_scraper.py lines
44-87): the credential is checked first, then `not any([start_urls,
search_terms, twitter_handles])` raises a ValueError before the client is
created. -/
def scrape_x_posts (tok : Option Str)
    (start_urls search_terms twitter_handles : Option (List Str)) : ScrapeOutcome :=
  if tokenMissing tok then ScrapeOutcome.configError configErrMsg
  else if !(listTruthy start_urls || listTruthy search_terms ||
            listTruthy twitter_handles) then
    ScrapeOutcome.inputError xInputErrMsg
  else ScrapeOutcome.remoteCallIssued

/-! ### Formatting scraped records as examples
(linkedin_scraper._format_as_examples and x_scraper._format_as_examples). -/

/-- Default author label used by both formatters. -/
def unknownAuthor : Str := "Unknown Author".data

/-- Placeholder returned when no scraped record survives filtering. -/
def noValidExamples : Str := "No valid examples found from scraped content.".data

/-- Separator joined between formatted examples. -/
def exampleSep : Str := "\n---\n\n".data

/-- A scraped LinkedIn record, with the fields read by _format_as_examples.
`text` is None when the key is absent (item.get defaults it to the empty
string); `authorName` is the value of item.get(author, {}).get(name, ...). -/
structure LinkedInItem where
  text : Option Str
  authorName : Option Str
  url : Option Str
deriving DecidableEq

/-- Python item.get(text, ) for a LinkedIn record. -/
def liText (it : LinkedInItem) : Str := it.text.getD []

/-- Python item.get(author, {}).get(name, Unknown Author). -/
def liAuthor (it : LinkedInItem) : Str := it.authorName.getD unknownAuthor

/-- Skip condition of the LinkedIn formatter loop: `not text or
len(text.strip()) < 20`. -/
def liSkip (it : LinkedInItem) : Bool :=
  (liText it).isEmpty || decide ((pyStrip (liText it)).length < 20)

/-- Filter stated positively: the record survives exactly when its text is
non-empty and its stripped length is at least 20. -/
def liKeep (it : LinkedInItem) : Bool :=
  !(liText it).isEmpty && decide (20 ≤ (pyStrip (liText it)).length)

/-- Rendered block for one surviving LinkedIn record. -/
def liRender (idx : Nat) (it : LinkedInItem) : Str :=
  "LinkedIn Example ".data ++ natStr idx ++ ":\n\"".data ++ liText it ++
    "\"\n(Author: ".data ++ liAuthor it ++ ")\n".data

/-- The `for idx, item in enumerate(items, 1)` loop of the LinkedIn formatter:
the index advances on every record, skipped or not. -/
def liLoop : Nat → List LinkedInItem → List Str
  | _, [] => []
  | idx, it :: rest =>
    if liSkip it then liLoop (idx + 1) rest
    else liRender idx it :: liLoop (idx + 1) rest

/-- linkedin_scraper._format_as_examples
(src/scrapers/linkedin_scraper.py lines 94-126). -/
def linkedin_format_as_examples (items : List LinkedInItem) : Str :=
  let examples := liLoop 1 items
  if examples = [] then noValidExamples
  else pyJoin exampleSep examples

/-- The author field of a scraped tweet: a JSON object, a JSON string, or
null.  An absent author key yields item.get(author, {}) = {}, embedded as
`adict none none`. -/
inductive XAuthor where
  | adict (userName : Option Str) (name : Option Str)
  | astr (s : Str)
  | anull
deriving DecidableEq

/-- A scraped tweet record, with the fields read by _format_as_examples. -/
structure XItem where
  text : Option Str
  full_text : Option Str
  author : XAuthor
  url : Option Str
deriving DecidableEq

/-- Python item.get(text, item.get(full_text, )). -/
def xText (it : XItem) : Str := it.text.getD (it.full_text.getD [])

/-- Author-name extraction of the X formatter: userName, then name, for a
dict; str(author) when truthy for other values; Unknown Author otherwise. -/
def xAuthorName (it : XItem) : Str :=
  match it.author with
  | XAuthor.adict u n => u.getD (n.getD unknownAuthor)
  | XAuthor.astr s => if s.isEmpty then unknownAuthor else s
  | XAuthor.anull => unknownAuthor

/-- Filter of the X formatter stated positively: non-empty text of stripped
length at least 10, not starting with RT @, and not longer than 400
characters. -/
def xKeep (it : XItem) : Bool :=
  !(xText it).isEmpty && decide (10 ≤ (pyStrip (xText it)).length) &&
    !("RT @".data.isPrefixOf (xText it)) && decide ((xText it).length ≤ 400)

/-- Rendered block for one surviving tweet. -/
def xRender (idx : Nat) (it : XItem) : Str :=
  "X Example ".data ++ natStr idx ++ ":\n\"".data ++ xText it ++
    "\"\n(Author: @".data ++ xAuthorName it ++ ")\n".data

/-- The `for idx, item in enumerate(items, 1)` loop of the X formatter, with
its three separate skip-and-continue guards. -/
def xLoop : Nat → List XItem → List Str
  | _, [] => []
  | idx, it :: rest =>
    if (xText it).isEmpty || decide ((pyStrip (xText it)).length < 10) then
      xLoop (idx + 1) rest
    else if "RT @".data.isPrefixOf (xText it) then
      xLoop (idx + 1) rest
    else if decide (400 < (xText it).length) then
      xLoop (idx + 1) rest
    else xRender idx it :: xLoop (idx + 1) rest

/-- x_scraper._format_as_examples (src/scrapers/x_scraper.py lines 127-175). -/
def x_format_as_examples (items : List XItem) : Str :=
  let examples := xLoop 1 items
  if examples = [] then noValidExamples
  else pyJoin exampleSep examples

/-- Python enumerate(items, start). -/
def enumeratePy (start : Nat) : List α → List (Nat × α)
  | [] => []
  | a :: t => (start, a) :: enumeratePy (start + 1) t

/-! ### Orchestrator (src/agents/orchestrator_agent.py) with its two
sub-agents (src/agents/linkedin_agent.py, src/agents/x_agent.py).

A remote LLM call is an oracle `Str → Except Str Str` mapping the prompt to
the response content, or to the error it raises.  The ThreadPoolExecutor
as_completed loop is embedded by a schedule flag choosing which of the two
generator futures completes first; the trace records each successful
future.result() retrieval and the issuing of the validation call, which is
exactly what the print instrumentation of the source logs. -/

/-- One remote LLM call: prompt in, response content out, or an error. -/
abbrev Oracle := Str → Except Str Str

/-- The output dictionary of LinkedInAgent.generate_posts and
XAgent.generate_posts. -/
structure GenOutput where
  platform : Str
  num_posts : Nat
  posts : Str
  agent : Str
deriving DecidableEq

/-- Prompt built by LinkedInAgent.generate_posts
(src/agents/linkedin_agent.py lines 38-60). -/
def linkedinPrompt (context examples : Str) (num_posts : Nat) : Str :=
  "Generate ".data ++ natStr num_posts ++
    " unique LinkedIn posts based on the following:\n\nCONTEXT:\n".data ++
    context ++ "\n\nEXAMPLE POSTS (for style reference):\n".data ++ examples ++
    "\n\nREQUIREMENTS:\n- Create ".data ++ natStr num_posts ++
    (" distinct, unique LinkedIn posts\n" ++
     "- Each post should be between 150-300 words\n" ++
     "- Follow the style and tone of the example posts\n" ++
     "- Incorporate insights from the context\n" ++
     "- Each post should be self-contained and valuable\n" ++
     "- Number each post clearly (Post 1, Post 2, etc.)\n" ++
     "- Include 3-5 relevant hashtags for each post\n\n" ++
     "Format each post clearly with:\n---\nPost [Number]\n" ++
     "[Post content here]\n---\n").data

/-- Prompt built by XAgent.generate_posts (src/agents/x_agent.py lines
38-60). -/
def xPrompt (context examples : Str) (num_posts : Nat) : Str :=
  "Generate ".data ++ natStr num_posts ++
    " unique X (Twitter) posts based on the following:\n\nCONTEXT:\n".data ++
    context ++ "\n\nEXAMPLE POSTS (for style reference):\n".data ++ examples ++
    "\n\nREQUIREMENTS:\n- Create ".data ++ natStr num_posts ++
    (" distinct, unique X posts\n" ++
     "- Each post MUST be under 280 characters (including hashtags)\n" ++
     "- Follow the style and tone of the example posts\n" ++
     "- Incorporate insights from the context\n" ++
     "- Each post should be impactful and shareable\n" ++
     "- Number each post clearly (Post 1, Post 2, etc.)\n" ++
     "- Include 1-3 relevant hashtags for each post\n\n" ++
     "Format each post clearly with:\n---\nPost [Number]\n" ++
     "[Post content here - UNDER 280 characters]\n---\n").data

/-- LinkedInAgent.generate_posts: one remote call wrapped into the result
dictionary. -/
def linkedin_generate_posts (lrun : Oracle) (context examples : Str)
    (num_posts : Nat) : Except Str GenOutput :=
  (lrun (linkedinPrompt context examples num_posts)).map fun resp =>
    { platform := "LinkedIn".data
      num_posts := num_posts
      posts := resp
      agent := "LinkedIn Content Creator".data }

/-- XAgent.generate_posts: one remote call wrapped into the result
dictionary. -/
def x_generate_posts (xrun : Oracle) (context examples : Str)
    (num_posts : Nat) : Except Str GenOutput :=
  (xrun (xPrompt context examples num_posts)).map fun resp =>
    { platform := "X (Twitter)".data
      num_posts := num_posts
      posts := resp
      agent := "X Content Creator".data }

/-- Events recorded while the workflow runs: a generator future returning
successfully, and the validation call being issued. -/
inductive AgentEvent where
  | linkedinReturned
  | xReturned
  | validateCalled
deriving DecidableEq

/-- OrchestratorAgent._execute_agents_parallel: both futures are submitted;
as_completed yields them in completion order (the sched flag, true when the
LinkedIn future completes first); the first failed future.result() re-raises
and abandons the sibling result. -/
def execute_agents_parallel (sched : Bool) (lrun xrun : Oracle)
    (context examples : Str) (num_posts : Nat) :
    List AgentEvent × Except Str (GenOutput × GenOutput) :=
  if sched then
    match linkedin_generate_posts lrun context examples num_posts with
    | Except.error e => ([], Except.error e)
    | Except.ok lo =>
      match x_generate_posts xrun context examples num_posts with
      | Except.error e => ([AgentEvent.linkedinReturned], Except.error e)
      | Except.ok xo =>
        ([AgentEvent.linkedinReturned, AgentEvent.xReturned], Except.ok (lo, xo))
  else
    match x_generate_posts xrun context examples num_posts with
    | Except.error e => ([], Except.error e)
    | Except.ok xo =>
      match linkedin_generate_posts lrun context examples num_posts with
      | Except.error e => ([AgentEvent.xReturned], Except.error e)
      | Except.ok lo =>
        ([AgentEvent.xReturned, AgentEvent.linkedinReturned], Except.ok (lo, xo))

/-- Validation prompt built from config.VALIDATION_PROMPT_TEMPLATE
(src/config.py lines 87-112). -/
def validationPrompt (context examples linkedin_posts x_posts : Str) : Str :=
  "Review the following generated posts and validate them based on these criteria:\n\nOriginal Context:\n".data ++
    context ++ "\n\nExample Posts:\n".data ++ examples ++
    "\n\nLinkedIn Posts Generated:\n".data ++ linkedin_posts ++
    "\n\nX Posts Generated:\n".data ++ x_posts ++
    ("\n\nValidation Criteria:\n" ++
     "1. Do all posts align with the provided context?\n" ++
     "2. Do posts match the style and tone of example posts?\n" ++
     "3. Are there any duplicate or very similar posts?\n" ++
     "4. Are LinkedIn posts appropriate length (150-300 words)?\n" ++
     "5. Are X posts under 280 characters?\n" ++
     "6. Is the content valuable and engaging?\n" ++
     "7. Are posts unique and varied?\n\n" ++
     "Provide a brief validation summary and confirm if the posts meet quality standards.\n" ++
     "If any posts need improvement, specify which ones and why.\n").data

/-- Name of the orchestrator agent. -/
def orchestratorName : Str := "Master Orchestrator".data

/-- Metadata block of the compiled final output dictionary. -/
structure Metadata where
  context_provided : Str
  total_linkedin_posts : Nat
  total_x_posts : Nat
  agents_used : List Str
deriving DecidableEq

/-- One per-platform block of the compiled final output dictionary. -/
structure PostsSection where
  platform : Str
  count : Nat
  content : Str
deriving DecidableEq

/-- The final output dictionary returned by execute_workflow. -/
structure FinalOutput where
  workflow_status : Str
  metadata : Metadata
  validation_summary : Str
  linkedin_posts : PostsSection
  x_posts : PostsSection
deriving DecidableEq

/-- Python `context[:100] + "..." if len(context) > 100 else context`. -/
def contextExcerpt (context : Str) : Str :=
  if 100 < context.length then context.take 100 ++ "...".data else context

/-- The dictionary literal compiled by OrchestratorAgent._validate_and_compile
(src/agents/orchestrator_agent.py lines 160-183). -/
def compileFinalOutput (context : Str) (lo xo : GenOutput) (vs : Str) :
    FinalOutput :=
  { workflow_status := "completed".data
    metadata :=
      { context_provided := contextExcerpt context
        total_linkedin_posts := lo.num_posts
        total_x_posts := xo.num_posts
        agents_used := [lo.agent, xo.agent, orchestratorName] }
    validation_summary := vs
    linkedin_posts :=
      { platform := lo.platform, count := lo.num_posts, content := lo.posts }
    x_posts :=
      { platform := xo.platform, count := xo.num_posts, content := xo.posts } }

/-- OrchestratorAgent._validate_and_compile: one validation call through the
orchestrator model, then the compiled dictionary. -/
def validate_and_compile (orun : Oracle) (context examples : Str)
    (lo xo : GenOutput) : Except Str FinalOutput :=
  (orun (validationPrompt context examples lo.posts xo.posts)).map
    (compileFinalOutput context lo xo)

/-- OrchestratorAgent.execute_workflow: the parallel generation phase, then
the validation and compilation phase.  The validateCalled event is recorded
exactly when the validation call is issued. -/
def execute_workflow (sched : Bool) (lrun xrun orun : Oracle)
    (context examples : Str) (num_posts : Nat) :
    List AgentEvent × Except Str FinalOutput :=
  match execute_agents_parallel sched lrun xrun context examples num_posts with
  | (tr, Except.error e) => (tr, Except.error e)
  | (tr, Except.ok (lo, xo)) =>
    (tr ++ [AgentEvent.validateCalled],
     validate_and_compile orun context examples lo xo)

/-! ### Report formatter (OrchestratorAgent.format_output) and the web UI
filter (app.filter_summary_from_output), plus the start_workflow handler
(src/app.py). -/

/-- Python upper() on the ASCII status strings used by the report. -/
def pyUpper (s : Str) : Str := s.map Char.toUpper

/-- The validation section header literal shared by format_output and
filter_summary_from_output. -/
def validationHeader : Str := "🔍 VALIDATION SUMMARY".data

/-- The LinkedIn section header literal. -/
def linkedinHeader : Str := "💼 LINKEDIN POSTS".data

/-- The X section header literal. -/
def xHeader : Str := "🐦 X (TWITTER) POSTS".data

/-- The list of blocks appended to `output` by OrchestratorAgent.format_output
(src/agents/orchestrator_agent.py lines 187-237), in order. -/
def formatOutputBlocks (fo : FinalOutput) : List Str :=
  [ "\n".data ++ List.replicate 70 '=',
    "📊 FINAL OUTPUT - THOUGHT LEADERSHIP CONTENT".data,
    List.replicate 70 '=' ++ "\n".data,
    "📋 WORKFLOW METADATA".data,
    List.replicate 70 '-',
    "Status: ".data ++ pyUpper fo.workflow_status,
    "Context: ".data ++ fo.metadata.context_provided,
    "Agents Involved: ".data ++ pyJoin ", ".data fo.metadata.agents_used,
    "Total LinkedIn Posts: ".data ++ natStr fo.metadata.total_linkedin_posts,
    "Total X Posts: ".data ++ natStr fo.metadata.total_x_posts,
    "\n".data,
    validationHeader,
    List.replicate 70 '-',
    fo.validation_summary,
    "\n".data,
    linkedinHeader,
    List.replicate 70 '-',
    "Platform: ".data ++ fo.linkedin_posts.platform,
    "Count: ".data ++ natStr fo.linkedin_posts.count,
    "\n".data,
    fo.linkedin_posts.content,
    "\n".data,
    xHeader,
    List.replicate 70 '-',
    "Platform: ".data ++ fo.x_posts.platform,
    "Count: ".data ++ natStr fo.x_posts.count,
    "\n".data,
    fo.x_posts.content,
    "\n".data,
    List.replicate 70 '=',
    "✅ WORKFLOW COMPLETED SUCCESSFULLY".data,
    List.replicate 70 '=' ]

/-- OrchestratorAgent.format_output: the blocks joined with a newline. -/
def format_output (fo : FinalOutput) : Str :=
  pyJoin [nl] (formatOutputBlocks fo)

/-- The line loop of app.filter_summary_from_output: a line containing the
validation header starts skipping and is dropped; while skipping, a line
containing either platform header stops skipping and is kept; all other lines
are kept exactly when not skipping. -/
def filterLoop : Bool → List Str → List Str
  | _, [] => []
  | skip, line :: rest =>
    if strHas line validationHeader then filterLoop true rest
    else
      let skip1 :=
        if skip && (strHas line linkedinHeader || strHas line xHeader) then
          false
        else skip
      if skip1 then filterLoop skip1 rest
      else line :: filterLoop skip1 rest

/-- app.filter_summary_from_output (src/app.py lines 40-62): split on
newlines, run the skip-section loop, and join with newlines. -/
def filter_summary_from_output (output_text : Str) : Str :=
  pyJoin [nl] (filterLoop false (pySplitLines output_text))

/-- The module-level workflow_status dictionary of src/app.py. -/
structure WorkflowStatus where
  running : Bool
  progress : Str
  output : Str
  full_output : Str
  error : Option Str
deriving DecidableEq

/-- The JSON body of a start_workflow request, with the fields the handler
reads. -/
structure StartRequest where
  context : Str
  num_posts : Nat
  linkedin_urls : Option (List Str)
  x_urls : Option (List Str)
  x_search_terms : Option (List Str)
deriving DecidableEq

/-- Response of the start_workflow handler: success JSON, or an error JSON
with its HTTP status code. -/
inductive StartResponse where
  | accepted
  | rejected (msg : Str) (code : Nat)
deriving DecidableEq

/-- Synchronous effect of one start_workflow request: the response, the
workflow_status record when the handler returns, and whether a background
workflow thread was spawned. -/
structure StartResult where
  response : StartResponse
  status : WorkflowStatus
  spawned : Bool
deriving DecidableEq

/-- app.start_workflow (src/app.py lines 257-292): reject while a workflow is
running, reject an empty or whitespace context, otherwise spawn the
background thread.  The handler itself never writes to workflow_status. -/
def start_workflow (st : WorkflowStatus) (req : StartRequest) : StartResult :=
  if st.running then
    { response := StartResponse.rejected "Workflow is already running".data 400
      status := st
      spawned := false }
  else if req.context.isEmpty || (pyStrip req.context).isEmpty then
    { response := StartResponse.rejected "Context cannot be empty".data 400
      status := st
      spawned := false }
  else
    { response := StartResponse.accepted
      status := st
      spawned := true }

/-- A negated skip condition of the X formatter loop, combining its three
guards into one flag. -/
def xSkip (it : XItem) : Bool :=
  ((xText it).isEmpty || decide ((pyStrip (xText it)).length < 10)) ||
    "RT @".data.isPrefixOf (xText it) || decide (400 < (xText it).length)

/-- An oracle whose remote call always succeeds with a fixed response. -/
def sampleRun : Oracle := fun _ => Except.ok "sample".data

/-- An oracle whose remote call always raises. -/
def failRun : Oracle := fun _ => Except.error "boom".data

/-- The LinkedIn generator output produced under sampleRun. -/
def sampleLinkedInOut : GenOutput :=
  { platform := "LinkedIn".data
    num_posts := 1
    posts := "sample".data
    agent := "LinkedIn Content Creator".data }

/-- The X generator output produced under sampleRun. -/
def sampleXOut : GenOutput :=
  { platform := "X (Twitter)".data
    num_posts := 1
    posts := "sample".data
    agent := "X Content Creator".data }

/-- The workflow report produced under sampleRun for context c, examples e,
one post per platform. -/
def sampleFinal : FinalOutput :=
  compileFinalOutput "c".data sampleLinkedInOut sampleXOut "sample".data

/-- A concrete report with a non-empty validation summary. -/
def sampleReport : FinalOutput :=
  { workflow_status := "completed".data
    metadata :=
      { context_provided := "ctx".data
        total_linkedin_posts := 1
        total_x_posts := 1
        agents_used := ["A".data, "B".data] }
    validation_summary := "Looks good.".data
    linkedin_posts := { platform := "LinkedIn".data, count := 1, content := "post".data }
    x_posts := { platform := "X (Twitter)".data, count := 1, content := "tweet".data } }

/-- A status record with a workflow in progress. -/
def runningStatus : WorkflowStatus :=
  { running := true
    progress := "Generating content with AI agents...".data
    output := "partial".data
    full_output := "full".data
    error := none }

/-- A well-formed start request. -/
def sampleStart : StartRequest :=
  { context := "We sell AI customer service tools.".data
    num_posts := 2
    linkedin_urls := none
    x_urls := none
    x_search_terms := none }

/-! ## Lemmas and theorems -/

theorem pyJoin_single (sep l : Str) : pyJoin sep [l] = l := rfl

theorem pyJoin_cons₂ (sep a b : Str) (t : List Str) :
    pyJoin sep (a :: b :: t) = a ++ sep ++ pyJoin sep (b :: t) := rfl

theorem prefixWeaken {p l : Str} (h : p <+: l) : p <:+: l := by
  rcases h with ⟨t, rfl⟩
  exact ⟨[], t, rfl⟩

theorem mem_infix_pyJoin {l : Str} {L : List Str} (sep : Str) (h : l ∈ L) :
    l <:+: pyJoin sep L := by
  induction L with
  | nil => cases h
  | cons a t ih =>
    cases t with
    | nil =>
      rcases List.mem_singleton.mp h with rfl
      exact List.infix_refl _
    | cons b t' =>
      rcases List.mem_cons.mp h with rfl | hmem
      · exact ⟨[], sep ++ pyJoin sep (b :: t'), by simp [pyJoin_cons₂]⟩
      · rcases ih hmem with ⟨s, u, hsu⟩
        exact ⟨a ++ sep ++ s, u, by rw [pyJoin_cons₂, ← hsu]; simp⟩

theorem pySplitLines_ne_nil (s : Str) : pySplitLines s ≠ [] := by
  induction s with
  | nil => simp [pySplitLines]
  | cons c rest ih =>
    rw [pySplitLines]
    rcases hsp : pySplitLines rest with _ | ⟨hh, tt⟩
    · exact absurd hsp ih
    · by_cases hc : c = nl <;> simp [hc]

theorem pySplitLines_no_nl {s l : Str} (h : l ∈ pySplitLines s) : nl ∉ l := by
  induction s generalizing l with
  | nil =>
    simp only [pySplitLines, List.mem_singleton] at h
    subst h
    simp
  | cons c rest ih =>
    rw [pySplitLines] at h
    rcases hsp : pySplitLines rest with _ | ⟨hh, tt⟩
    · exact absurd hsp (pySplitLines_ne_nil rest)
    · rw [hsp] at h
      dsimp only at h
      by_cases hc : c = nl
      · rw [if_pos hc] at h
        rcases List.mem_cons.mp h with rfl | h'
        · simp
        · exact ih (hsp ▸ h')
      · rw [if_neg hc] at h
        rcases List.mem_cons.mp h with rfl | h'
        · intro hmem
          rcases List.mem_cons.mp hmem with rfl | hmem'
          · exact hc rfl
          · exact ih (hsp ▸ List.mem_cons_self hh tt) hmem'
        · exact ih (hsp ▸ List.mem_cons_of_mem hh h')

theorem pyJoin_pySplitLines (s : Str) : pyJoin [nl] (pySplitLines s) = s := by
  induction s with
  | nil => rfl
  | cons c rest ih =>
    rw [pySplitLines]
    rcases hsp : pySplitLines rest with _ | ⟨hh, tt⟩
    · exact absurd hsp (pySplitLines_ne_nil rest)
    · rw [hsp] at ih
      dsimp only
      by_cases hc : c = nl
      · subst hc
        rw [if_pos rfl, pyJoin_cons₂, ih]
        simp
      · rw [if_neg hc]
        cases tt with
        | nil =>
          rw [pyJoin_single] at ih
          rw [pyJoin_single, ih]
        | cons b tt' =>
          rw [pyJoin_cons₂] at ih ⊢
          rw [← ih]
          simp

theorem pySplitLines_of_no_nl {a : Str} (h : nl ∉ a) : pySplitLines a = [a] := by
  induction a with
  | nil => rfl
  | cons c t ih =>
    have hc : c ≠ nl := fun hcc => h (hcc ▸ List.mem_cons_self c t)
    have ht : nl ∉ t := fun hm => h (List.mem_cons_of_mem _ hm)
    rw [pySplitLines, ih ht]
    simp [hc]

theorem pySplitLines_append {a : Str} (rest : Str) (h : nl ∉ a) :
    pySplitLines (a ++ nl :: rest) = a :: pySplitLines rest := by
  induction a with
  | nil =>
    rw [List.nil_append, pySplitLines]
    rcases hsp : pySplitLines rest with _ | ⟨hh, tt⟩
    · exact absurd hsp (pySplitLines_ne_nil rest)
    · simp
  | cons c t ih =>
    have hc : c ≠ nl := fun hcc => h (hcc ▸ List.mem_cons_self c t)
    have ht : nl ∉ t := fun hm => h (List.mem_cons_of_mem _ hm)
    rw [List.cons_append, pySplitLines, ih ht]
    simp [hc]

theorem pySplitLines_pyJoin {L : List Str} (hne : L ≠ [])
    (h : ∀ l ∈ L, nl ∉ l) : pySplitLines (pyJoin [nl] L) = L := by
  induction L with
  | nil => exact absurd rfl hne
  | cons a t ih =>
    cases t with
    | nil =>
      rw [pyJoin_single]
      exact pySplitLines_of_no_nl (h a (List.mem_singleton_self a))
    | cons b t' =>
      rw [pyJoin_cons₂]
      have hstep : a ++ [nl] ++ pyJoin [nl] (b :: t') =
          a ++ nl :: pyJoin [nl] (b :: t') := by simp
      rw [hstep, pySplitLines_append _ (h a (List.mem_cons_self a _)),
        ih (by simp) fun l hl => h l (List.mem_cons_of_mem _ hl)]

theorem strHas_iff {line pat : Str} : strHas line pat = true ↔ pat <:+: line := by
  simp only [strHas, List.any_eq_true, List.mem_tails, List.isPrefixOf_iff_prefix]
  constructor
  · rintro ⟨t, hsuf, hpre⟩
    exact List.infix_iff_prefix_suffix.mpr ⟨t, hpre, hsuf⟩
  · intro h
    rcases List.infix_iff_prefix_suffix.mp h with ⟨t, hpre, hsuf⟩
    exact ⟨t, hsuf, hpre⟩

theorem prefix_of_append_cons {p xs ys : Str} {c : Char}
    (h : p <+: xs ++ c :: ys) (hc : c ∉ p) : p <+: xs := by
  induction p generalizing xs with
  | nil => exact List.nil_prefix
  | cons q p' ih =>
    cases xs with
    | nil =>
      rcases List.cons_prefix_cons.mp (by simpa using h) with ⟨rfl, _⟩
      exact absurd (List.mem_cons_self _ _) hc
    | cons x xs' =>
      rcases List.cons_prefix_cons.mp (by simpa using h) with ⟨rfl, h'⟩
      exact List.cons_prefix_cons.mpr
        ⟨rfl, ih h' fun hm => hc (List.mem_cons_of_mem _ hm)⟩

theorem infix_of_append_cons {p xs ys : Str} {c : Char}
    (h : p <:+: xs ++ c :: ys) (hc : c ∉ p) : p <:+: xs ∨ p <:+: ys := by
  induction xs with
  | nil =>
    rw [List.nil_append] at h
    rcases List.infix_cons_iff.mp h with hpre | hinf
    · have h0 : p <+: ([] : Str) :=
        @prefix_of_append_cons p ([] : Str) ys c (by simpa using hpre) hc
      rcases List.prefix_nil.mp h0 with rfl
      exact Or.inl (List.infix_refl _)
    · exact Or.inr hinf
  | cons x xs' ih =>
    have h' : p <:+: x :: (xs' ++ c :: ys) := by simpa using h
    rcases List.infix_cons_iff.mp h' with hpre | hinf
    · have hp : p <+: x :: xs' :=
        @prefix_of_append_cons p (x :: xs') ys c (by simpa using hpre) hc
      exact Or.inl (prefixWeaken hp)
    · rcases ih hinf with h1 | h2
      · exact Or.inl (List.infix_cons h1)
      · exact Or.inr h2

theorem not_infix_pyJoin {p : Str} {c : Char} {L : List Str}
    (hL : ∀ l ∈ L, ¬ p <:+: l) (hc : c ∉ p) (hp : p ≠ []) :
    ¬ p <:+: pyJoin [c] L := by
  induction L with
  | nil =>
    intro h
    exact hp (List.infix_nil.mp h)
  | cons a t ih =>
    cases t with
    | nil =>
      rw [pyJoin_single]
      exact hL a (List.mem_singleton_self a)
    | cons b t' =>
      intro h
      rw [pyJoin_cons₂] at h
      have h' : p <:+: a ++ c :: pyJoin [c] (b :: t') := by simpa using h
      rcases infix_of_append_cons h' hc with h1 | h2
      · exact hL a (List.mem_cons_self a _) h1
      · exact ih (fun l hl => hL l (List.mem_cons_of_mem _ hl)) h2

theorem filterLoop_cons (skip : Bool) (line : Str) (rest : List Str) :
    filterLoop skip (line :: rest) =
      if strHas line validationHeader then filterLoop true rest
      else if skip then
        if strHas line linkedinHeader || strHas line xHeader then
          line :: filterLoop false rest
        else filterLoop true rest
      else line :: filterLoop false rest := by
  rw [filterLoop]
  cases skip <;> by_cases h1 : strHas line validationHeader <;>
    by_cases h2 : strHas line linkedinHeader || strHas line xHeader <;>
    simp [h1, h2]

theorem filterLoop_subset {l : Str} :
    ∀ (skip : Bool) (L : List Str), l ∈ filterLoop skip L → l ∈ L := by
  intro skip L
  induction L generalizing skip with
  | nil => intro h; simp [filterLoop] at h
  | cons line rest ih =>
    intro h
    rw [filterLoop_cons] at h
    by_cases h1 : strHas line validationHeader
    · rw [if_pos h1] at h
      exact List.mem_cons_of_mem _ (ih _ h)
    · rw [if_neg h1] at h
      cases skip with
      | true =>
        rw [if_pos rfl] at h
        by_cases h2 : strHas line linkedinHeader || strHas line xHeader
        · rw [if_pos h2] at h
          rcases List.mem_cons.mp h with rfl | h'
          · exact List.mem_cons_self _ _
          · exact List.mem_cons_of_mem _ (ih _ h')
        · rw [if_neg h2] at h
          exact List.mem_cons_of_mem _ (ih _ h)
      | false =>
        rw [if_neg Bool.false_ne_true] at h
        rcases List.mem_cons.mp h with rfl | h'
        · exact List.mem_cons_self _ _
        · exact List.mem_cons_of_mem _ (ih _ h')

theorem filterLoop_no_header {l : Str} :
    ∀ (skip : Bool) (L : List Str), l ∈ filterLoop skip L →
      strHas l validationHeader = false := by
  intro skip L
  induction L generalizing skip with
  | nil => intro h; simp [filterLoop] at h
  | cons line rest ih =>
    intro h
    rw [filterLoop_cons] at h
    by_cases h1 : strHas line validationHeader
    · rw [if_pos h1] at h
      exact ih _ h
    · rw [if_neg h1] at h
      cases skip with
      | true =>
        rw [if_pos rfl] at h
        by_cases h2 : strHas line linkedinHeader || strHas line xHeader
        · rw [if_pos h2] at h
          rcases List.mem_cons.mp h with rfl | h'
          · exact Bool.not_eq_true _ ▸ h1
          · exact ih _ h'
        · rw [if_neg h2] at h
          exact ih _ h
      | false =>
        rw [if_neg Bool.false_ne_true] at h
        rcases List.mem_cons.mp h with rfl | h'
        · exact Bool.not_eq_true _ ▸ h1
        · exact ih _ h'

theorem filterLoop_id {L : List Str}
    (h : ∀ l ∈ L, strHas l validationHeader = false) :
    filterLoop false L = L := by
  induction L with
  | nil => rfl
  | cons line rest ih =>
    rw [filterLoop_cons,
      if_neg (by simp [h line (List.mem_cons_self line rest)]),
      if_neg Bool.false_ne_true]
    exact congrArg (line :: ·) (ih fun l hl => h l (List.mem_cons_of_mem _ hl))

/-- Claim C7: for every WorkflowReport with a non-empty validation_summary,
the full rendering produced by format_output contains the validation section
header, and the UI-stripped rendering produced by filter_summary_from_output
never contains that header. -/
theorem claim_C7 (fo : FinalOutput) (hvs : fo.validation_summary ≠ []) :
    validationHeader <:+: format_output fo ∧
    ¬ validationHeader <:+: filter_summary_from_output (format_output fo) := by
  constructor
  · exact mem_infix_pyJoin [nl] (by simp [formatOutputBlocks])
  · unfold filter_summary_from_output
    apply not_infix_pyJoin
    · intro l hl hinf
      have hno := filterLoop_no_header _ _ hl
      rw [strHas_iff.mpr hinf] at hno
      exact Bool.noConfusion hno
    · decide
    · decide

/-- Witness for claim C7 at a concrete report. -/
theorem claim_C7_witness :
    validationHeader <:+: format_output sampleReport ∧
    ¬ validationHeader <:+: filter_summary_from_output (format_output sampleReport) :=
  claim_C7 sampleReport (by decide)

/-- Claim C9: filter_summary_from_output is idempotent, and any text none of
whose lines contains the validation header is returned unchanged. -/
theorem claim_C9 (s : Str) :
    filter_summary_from_output (filter_summary_from_output s) =
      filter_summary_from_output s ∧
    ((∀ l ∈ pySplitLines s, strHas l validationHeader = false) →
      filter_summary_from_output s = s) := by
  constructor
  · unfold filter_summary_from_output
    rcases hK : filterLoop false (pySplitLines s) with _ | ⟨k, K'⟩
    · rfl
    · have hsub : ∀ l ∈ k :: K', l ∈ pySplitLines s := fun l hl =>
        filterLoop_subset _ _ (hK ▸ hl)
      have hnonl : ∀ l ∈ k :: K', nl ∉ l := fun l hl =>
        pySplitLines_no_nl (hsub l hl)
      have hnoh : ∀ l ∈ k :: K', strHas l validationHeader = false :=
        fun l hl => filterLoop_no_header _ _ (hK ▸ hl)
      rw [pySplitLines_pyJoin (by simp) hnonl, filterLoop_id hnoh]
  · intro h
    unfold filter_summary_from_output
    rw [filterLoop_id h, pyJoin_pySplitLines]

/-- Witness for claim C9 on a concrete header-free text. -/
theorem claim_C9_witness :
    filter_summary_from_output "Line one\nLine two".data =
      "Line one\nLine two".data :=
  (claim_C9 "Line one\nLine two".data).2 (by decide)

theorem liSkip_eq (it : LinkedInItem) : liSkip it = !liKeep it := by
  unfold liSkip liKeep
  by_cases h2 : (pyStrip (liText it)).length < 20
  · simp [h2, Nat.not_le.mpr h2]
  · simp [h2, Nat.not_lt.mp h2]

theorem xSkip_eq (it : XItem) : xSkip it = !xKeep it := by
  unfold xSkip xKeep
  by_cases h2 : (pyStrip (xText it)).length < 10
  · by_cases h4 : 400 < (xText it).length
    · simp [h2, h4, Nat.not_le.mpr h2, Nat.not_le.mpr h4]
    · simp [h2, h4, Nat.not_le.mpr h2, Nat.not_lt.mp h4]
  · by_cases h4 : 400 < (xText it).length
    · simp [h2, h4, Nat.not_lt.mp h2, Nat.not_le.mpr h4]
    · simp [h2, h4, Nat.not_lt.mp h2, Nat.not_lt.mp h4]

theorem xLoop_cons (idx : Nat) (it : XItem) (rest : List XItem) :
    xLoop idx (it :: rest) =
      if xSkip it then xLoop (idx + 1) rest
      else xRender idx it :: xLoop (idx + 1) rest := by
  rw [xLoop]
  unfold xSkip
  by_cases h1 : ((xText it).isEmpty || decide ((pyStrip (xText it)).length < 10)) = true <;>
    by_cases h2 : "RT @".data.isPrefixOf (xText it) <;>
    by_cases h3 : decide (400 < (xText it).length) = true <;>
    simp [h1, h2, h3]

theorem liLoop_eq (idx : Nat) (items : List LinkedInItem) :
    liLoop idx items =
      ((enumeratePy idx items).filter fun p => liKeep p.2).map fun p =>
        liRender p.1 p.2 := by
  induction items generalizing idx with
  | nil => rfl
  | cons it rest ih =>
    rw [liLoop, enumeratePy]
    have hs := liSkip_eq it
    by_cases h : liSkip it
    · have hk : liKeep it = false := by
        rw [h] at hs
        simpa using hs.symm
      rw [if_pos h]
      simp [List.filter_cons, hk, ih]
    · have h' : liSkip it = false := by simpa using h
      have hk : liKeep it = true := by
        rw [h'] at hs
        simpa using hs.symm
      rw [if_neg h]
      simp [List.filter_cons, hk, ih]

theorem xLoop_eq (idx : Nat) (items : List XItem) :
    xLoop idx items =
      ((enumeratePy idx items).filter fun p => xKeep p.2).map fun p =>
        xRender p.1 p.2 := by
  induction items generalizing idx with
  | nil => rfl
  | cons it rest ih =>
    rw [xLoop_cons, enumeratePy]
    have hs := xSkip_eq it
    by_cases h : xSkip it
    · have hk : xKeep it = false := by
        rw [h] at hs
        simpa using hs.symm
      rw [if_pos h]
      simp [List.filter_cons, hk, ih]
    · have h' : xSkip it = false := by simpa using h
      have hk : xKeep it = true := by
        rw [h'] at hs
        simpa using hs.symm
      rw [if_neg h]
      simp [List.filter_cons, hk, ih]

theorem mem_enumeratePy {α : Type} {p : Nat × α} :
    ∀ {k : Nat} {items : List α}, p ∈ enumeratePy k items → p.2 ∈ items := by
  intro k items
  induction items generalizing k with
  | nil => intro h; simp [enumeratePy] at h
  | cons a t ih =>
    intro h
    rw [enumeratePy] at h
    rcases List.mem_cons.mp h with rfl | h'
    · exact List.mem_cons_self _ _
    · exact List.mem_cons_of_mem _ (ih h')

/-- Claim C6: each formatter keeps a record exactly when its text passes the
platform filter (liKeep: non-empty text of stripped length at least 20;
xKeep: non-empty text of stripped length at least 10, not retweet-prefixed,
not longer than 400 characters), renders each surviving record with liRender
or xRender (quoted text plus author attribution), and joins the rendered
records with the fixed separator. -/
theorem claim_C6 (liItems : List LinkedInItem) (xItems : List XItem) :
    (linkedin_format_as_examples liItems =
      if ((enumeratePy 1 liItems).filter fun p => liKeep p.2) = [] then
        noValidExamples
      else
        pyJoin exampleSep
          (((enumeratePy 1 liItems).filter fun p => liKeep p.2).map fun p =>
            liRender p.1 p.2)) ∧
    (x_format_as_examples xItems =
      if ((enumeratePy 1 xItems).filter fun p => xKeep p.2) = [] then
        noValidExamples
      else
        pyJoin exampleSep
          (((enumeratePy 1 xItems).filter fun p => xKeep p.2).map fun p =>
            xRender p.1 p.2)) := by
  constructor
  · show (let examples := liLoop 1 liItems
      if examples = [] then noValidExamples else pyJoin exampleSep examples) = _
    rw [liLoop_eq]
    by_cases h : ((enumeratePy 1 liItems).filter fun p => liKeep p.2) = [] <;>
      simp [h]
  · show (let examples := xLoop 1 xItems
      if examples = [] then noValidExamples else pyJoin exampleSep examples) = _
    rw [xLoop_eq]
    by_cases h : ((enumeratePy 1 xItems).filter fun p => xKeep p.2) = [] <;>
      simp [h]

/-- Claim C5: when no record survives filtering, both formatters return the
fixed placeholder, which is not the empty string. -/
theorem claim_C5 (liItems : List LinkedInItem) (xItems : List XItem)
    (hli : ∀ it ∈ liItems, liKeep it = false)
    (hx : ∀ it ∈ xItems, xKeep it = false) :
    linkedin_format_as_examples liItems = noValidExamples ∧
    x_format_as_examples xItems = noValidExamples ∧
    noValidExamples ≠ [] := by
  refine ⟨?_, ?_, by decide⟩
  · have hfil : ((enumeratePy 1 liItems).filter fun p => liKeep p.2) = [] :=
      List.filter_eq_nil_iff.mpr fun p hp => by
        simp [hli p.2 (mem_enumeratePy hp)]
    show (let examples := liLoop 1 liItems
      if examples = [] then noValidExamples else pyJoin exampleSep examples) = _
    rw [liLoop_eq]
    simp [hfil]
  · have hfil : ((enumeratePy 1 xItems).filter fun p => xKeep p.2) = [] :=
      List.filter_eq_nil_iff.mpr fun p hp => by
        simp [hx p.2 (mem_enumeratePy hp)]
    show (let examples := xLoop 1 xItems
      if examples = [] then noValidExamples else pyJoin exampleSep examples) = _
    rw [xLoop_eq]
    simp [hfil]

/-- Witness for claim C5 on records whose texts are below the length
thresholds. -/
theorem claim_C5_witness :
    linkedin_format_as_examples
        [{ text := some "short".data, authorName := none, url := none }] =
      noValidExamples ∧
    x_format_as_examples
        [{ text := some "tiny".data, full_text := none,
           author := XAuthor.anull, url := none }] = noValidExamples ∧
    noValidExamples ≠ [] :=
  claim_C5 _ _ (by decide) (by decide)

theorem lgp_err {lrun : Oracle} {c ex : Str} {n : Nat} {e : Str}
    (h : lrun (linkedinPrompt c ex n) = Except.error e) :
    linkedin_generate_posts lrun c ex n = Except.error e := by
  simp [linkedin_generate_posts, h, Except.map]

theorem lgp_ok {lrun : Oracle} {c ex : Str} {n : Nat} {v : Str}
    (h : lrun (linkedinPrompt c ex n) = Except.ok v) :
    linkedin_generate_posts lrun c ex n = Except.ok
      { platform := "LinkedIn".data, num_posts := n, posts := v,
        agent := "LinkedIn Content Creator".data } := by
  simp [linkedin_generate_posts, h, Except.map]

theorem xgp_err {xrun : Oracle} {c ex : Str} {n : Nat} {e : Str}
    (h : xrun (xPrompt c ex n) = Except.error e) :
    x_generate_posts xrun c ex n = Except.error e := by
  simp [x_generate_posts, h, Except.map]

theorem xgp_ok {xrun : Oracle} {c ex : Str} {n : Nat} {v : Str}
    (h : xrun (xPrompt c ex n) = Except.ok v) :
    x_generate_posts xrun c ex n = Except.ok
      { platform := "X (Twitter)".data, num_posts := n, posts := v,
        agent := "X Content Creator".data } := by
  simp [x_generate_posts, h, Except.map]

theorem trace_shape (sched : Bool) (lrun xrun orun : Oracle) (c ex : Str)
    (n : Nat) :
    (execute_workflow sched lrun xrun orun c ex n).1 = [] ∨
    (execute_workflow sched lrun xrun orun c ex n).1 =
      [AgentEvent.linkedinReturned] ∨
    (execute_workflow sched lrun xrun orun c ex n).1 = [AgentEvent.xReturned] ∨
    (execute_workflow sched lrun xrun orun c ex n).1 =
      [AgentEvent.linkedinReturned, AgentEvent.xReturned,
        AgentEvent.validateCalled] ∨
    (execute_workflow sched lrun xrun orun c ex n).1 =
      [AgentEvent.xReturned, AgentEvent.linkedinReturned,
        AgentEvent.validateCalled] := by
  cases hl : lrun (linkedinPrompt c ex n) with
  | error e =>
    cases hx : xrun (xPrompt c ex n) with
    | error e2 =>
      cases sched <;>
        simp [execute_workflow, execute_agents_parallel, lgp_err hl, xgp_err hx]
    | ok xv =>
      cases sched <;>
        simp [execute_workflow, execute_agents_parallel, lgp_err hl, xgp_ok hx]
  | ok lv =>
    cases hx : xrun (xPrompt c ex n) with
    | error e2 =>
      cases sched <;>
        simp [execute_workflow, execute_agents_parallel, lgp_ok hl, xgp_err hx]
    | ok xv =>
      cases sched <;>
        simp [execute_workflow, execute_agents_parallel, lgp_ok hl, xgp_ok hx]

theorem ew_ok_shape {sched : Bool} {lrun xrun orun : Oracle} {c ex : Str}
    {n : Nat} {out : FinalOutput}
    (h : (execute_workflow sched lrun xrun orun c ex n).2 = Except.ok out) :
    ∃ lv xv vv, out = compileFinalOutput c
      { platform := "LinkedIn".data, num_posts := n, posts := lv,
        agent := "LinkedIn Content Creator".data }
      { platform := "X (Twitter)".data, num_posts := n, posts := xv,
        agent := "X Content Creator".data } vv := by
  cases hl : lrun (linkedinPrompt c ex n) with
  | error e =>
    cases hx : xrun (xPrompt c ex n) with
    | error e2 =>
      cases sched <;>
        simp [execute_workflow, execute_agents_parallel, lgp_err hl,
          xgp_err hx] at h
    | ok xv =>
      cases sched <;>
        simp [execute_workflow, execute_agents_parallel, lgp_err hl,
          xgp_ok hx] at h
  | ok lv =>
    cases hx : xrun (xPrompt c ex n) with
    | error e2 =>
      cases sched <;>
        simp [execute_workflow, execute_agents_parallel, lgp_ok hl,
          xgp_err hx] at h
    | ok xv =>
      cases ho : orun (validationPrompt c ex lv xv) with
      | error e =>
        cases sched <;>
          simp [execute_workflow, execute_agents_parallel, validate_and_compile,
            lgp_ok hl, xgp_ok hx, ho, Except.map] at h
      | ok vv =>
        cases sched <;>
          simp [execute_workflow, execute_agents_parallel, validate_and_compile,
            lgp_ok hl, xgp_ok hx, ho, Except.map] at h <;>
          exact ⟨lv, xv, vv, h.symm⟩

/-- Claim C1: for every context, examples and requested count of at least
one, a successfully returned report has status completed, exactly one
LinkedIn block and one X block (the two fixed fields of FinalOutput), and
both count fields equal to the requested count. -/
theorem claim_C1 (sched : Bool) (lrun xrun orun : Oracle)
    (context examples : Str) (num_posts : Nat) (out : FinalOutput)
    (hn : 1 ≤ num_posts)
    (h : (execute_workflow sched lrun xrun orun context examples num_posts).2 =
      Except.ok out) :
    out.workflow_status = "completed".data ∧
    out.linkedin_posts.count = num_posts ∧
    out.x_posts.count = num_posts ∧
    out.linkedin_posts.platform = "LinkedIn".data ∧
    out.x_posts.platform = "X (Twitter)".data := by
  rcases ew_ok_shape h with ⟨lv, xv, vv, rfl⟩
  simp [compileFinalOutput]

/-- Witness for claim C1 with concrete oracles and count one. -/
theorem claim_C1_witness :
    sampleFinal.workflow_status = "completed".data ∧
    sampleFinal.linkedin_posts.count = 1 ∧
    sampleFinal.x_posts.count = 1 ∧
    sampleFinal.linkedin_posts.platform = "LinkedIn".data ∧
    sampleFinal.x_posts.platform = "X (Twitter)".data :=
  claim_C1 true sampleRun sampleRun sampleRun "c".data "e".data 1 sampleFinal
    (by decide) (by rfl)

/-- Claim C2: if either generator call raises, execute_workflow yields an
error under every completion order, so no report (in particular no partial
report) is returned. -/
theorem claim_C2 (lrun xrun orun : Oracle) (context examples : Str)
    (num_posts : Nat)
    (h : (∃ e, lrun (linkedinPrompt context examples num_posts) =
            Except.error e) ∨
         (∃ e, xrun (xPrompt context examples num_posts) = Except.error e))
    (sched : Bool) :
    (execute_workflow sched lrun xrun orun context examples num_posts).2.isOk =
      false := by
  cases hl : lrun (linkedinPrompt context examples num_posts) with
  | error e =>
    cases hx : xrun (xPrompt context examples num_posts) with
    | error e2 =>
      cases sched <;>
        simp [execute_workflow, execute_agents_parallel, lgp_err hl,
          xgp_err hx, Except.isOk, Except.toBool]
    | ok xv =>
      cases sched <;>
        simp [execute_workflow, execute_agents_parallel, lgp_err hl,
          xgp_ok hx, Except.isOk, Except.toBool]
  | ok lv =>
    cases hx : xrun (xPrompt context examples num_posts) with
    | error e2 =>
      cases sched <;>
        simp [execute_workflow, execute_agents_parallel, lgp_ok hl,
          xgp_err hx, Except.isOk, Except.toBool]
    | ok xv =>
      exfalso
      rcases h with ⟨e, he⟩ | ⟨e, he⟩
      · rw [hl] at he
        exact Except.noConfusion he
      · rw [hx] at he
        exact Except.noConfusion he

/-- Witness for claim C2 with a failing LinkedIn oracle. -/
theorem claim_C2_witness :
    (execute_workflow true failRun sampleRun sampleRun "c".data "e".data
      1).2.isOk = false :=
  claim_C2 failRun sampleRun sampleRun "c".data "e".data 1
    (Or.inl ⟨"boom".data, rfl⟩) true

/-- Claim C3: under every schedule, the validateCalled event only appears
after both generator-return events; and with succeeding generators the two
schedules realize both generator orders, so no ordering holds between the
generator tasks themselves. -/
theorem claim_C3 (lrun xrun orun : Oracle) (context examples : Str)
    (num_posts : Nat) :
    (∀ (sched : Bool) (i : Nat),
      ((execute_workflow sched lrun xrun orun context examples
          num_posts).1)[i]? = some AgentEvent.validateCalled →
      AgentEvent.linkedinReturned ∈
        ((execute_workflow sched lrun xrun orun context examples
          num_posts).1).take i ∧
      AgentEvent.xReturned ∈
        ((execute_workflow sched lrun xrun orun context examples
          num_posts).1).take i) ∧
    ((∃ lo, linkedin_generate_posts lrun context examples num_posts =
        Except.ok lo) →
     (∃ xo, x_generate_posts xrun context examples num_posts =
        Except.ok xo) →
     (execute_workflow true lrun xrun orun context examples num_posts).1 =
       [AgentEvent.linkedinReturned, AgentEvent.xReturned,
         AgentEvent.validateCalled] ∧
     (execute_workflow false lrun xrun orun context examples num_posts).1 =
       [AgentEvent.xReturned, AgentEvent.linkedinReturned,
         AgentEvent.validateCalled]) := by
  constructor
  · intro sched i h
    rcases trace_shape sched lrun xrun orun context examples num_posts with
      h0 | h0 | h0 | h0 | h0 <;> rw [h0] at h ⊢ <;>
      rcases i with _ | (_ | (_ | j)) <;> simp_all
  · rintro ⟨lo, hl⟩ ⟨xo, hx⟩
    constructor <;>
      simp [execute_workflow, execute_agents_parallel, hl, hx]

/-- Witness for claim C3: both orders occur with succeeding oracles. -/
theorem claim_C3_witness :
    (execute_workflow true sampleRun sampleRun sampleRun "c".data "e".data
        1).1 =
      [AgentEvent.linkedinReturned, AgentEvent.xReturned,
        AgentEvent.validateCalled] ∧
    (execute_workflow false sampleRun sampleRun sampleRun "c".data "e".data
        1).1 =
      [AgentEvent.xReturned, AgentEvent.linkedinReturned,
        AgentEvent.validateCalled] :=
  (claim_C3 sampleRun sampleRun sampleRun "c".data "e".data 1).2
    ⟨_, rfl⟩ ⟨_, rfl⟩

/-- Claim C10: the context excerpt of a returned report is the context itself
when the context has at most 100 characters, and its first 100 characters
followed by three dots otherwise; its length never exceeds 103. -/
theorem claim_C10 (sched : Bool) (lrun xrun orun : Oracle)
    (context examples : Str) (num_posts : Nat) (out : FinalOutput)
    (h : (execute_workflow sched lrun xrun orun context examples num_posts).2 =
      Except.ok out) :
    (context.length ≤ 100 → out.metadata.context_provided = context) ∧
    (100 < context.length →
      out.metadata.context_provided = context.take 100 ++ "...".data) ∧
    out.metadata.context_provided.length ≤ 103 := by
  rcases ew_ok_shape h with ⟨lv, xv, vv, rfl⟩
  refine ⟨?_, ?_, ?_⟩
  · intro hle
    simp [compileFinalOutput, contextExcerpt, Nat.not_lt.mpr hle]
  · intro hgt
    simp [compileFinalOutput, contextExcerpt, hgt]
  · by_cases hgt : 100 < context.length
    · have h3 : ("...".data : Str).length = 3 := rfl
      simp [compileFinalOutput, contextExcerpt, hgt, List.length_append,
        List.length_take, h3]
    · simp [compileFinalOutput, contextExcerpt, hgt]
      omega

/-- Witness for claim C10 at a one-character context. -/
theorem claim_C10_witness :
    sampleFinal.metadata.context_provided = "c".data ∧
    sampleFinal.metadata.context_provided.length ≤ 103 :=
  ⟨(claim_C10 true sampleRun sampleRun sampleRun "c".data "e".data 1
      sampleFinal rfl).1 (by decide),
   (claim_C10 true sampleRun sampleRun sampleRun "c".data "e".data 1
      sampleFinal rfl).2.2⟩

/-- Counterexample to claim C4: with a configured credential and an empty
URL list (zero selectors), the LinkedIn scraper does not fail with an input
error; it proceeds to issue the remote call. -/
theorem claim_C4_counterexample :
    scrape_linkedin_posts (some "apify-token".data) [] =
      ScrapeOutcome.remoteCallIssued ∧
    scrape_linkedin_posts (some "apify-token".data) [] ≠
      ScrapeOutcome.inputError xInputErrMsg := by
  constructor
  · rfl
  · decide

/-- Claim C4 as amended: with a configured credential, the X scraper fails
with an input error before issuing any remote call whenever all three
selector arguments are absent or empty lists, while the LinkedIn scraper
performs no selector validation and issues the remote call even when its URL
list is empty. -/
theorem claim_C4_amended (tok : Option Str) (hk : tokenMissing tok = false) :
    (∀ su st th : Option (List Str),
      listTruthy su = false → listTruthy st = false → listTruthy th = false →
      scrape_x_posts tok su st th = ScrapeOutcome.inputError xInputErrMsg) ∧
    (∀ urls : List Str,
      scrape_linkedin_posts tok urls = ScrapeOutcome.remoteCallIssued) := by
  constructor
  · intro su st th hsu hst hth
    simp [scrape_x_posts, hk, hsu, hst, hth]
  · intro urls
    simp [scrape_linkedin_posts, hk]

/-- Witness for the amended claim C4 at concrete inputs. -/
theorem claim_C4_witness :
    scrape_x_posts (some "apify-token".data) none (some []) none =
      ScrapeOutcome.inputError xInputErrMsg ∧
    scrape_linkedin_posts (some "apify-token".data) [] =
      ScrapeOutcome.remoteCallIssued :=
  ⟨(claim_C4_amended (some "apify-token".data) (by decide)).1 none (some [])
      none (by decide) (by decide) (by decide),
   (claim_C4_amended (some "apify-token".data) (by decide)).2 []⟩

/-- Claim C8: while the status record says a workflow is running, a
start_workflow request is rejected with an error response, the whole status
record is returned unchanged, and no background thread is spawned, so the
running workflow's state is untouched. -/
theorem claim_C8 (st : WorkflowStatus) (req : StartRequest)
    (h : st.running = true) :
    (start_workflow st req).response =
      StartResponse.rejected "Workflow is already running".data 400 ∧
    (start_workflow st req).status = st ∧
    (start_workflow st req).spawned = false := by
  simp [start_workflow, h]

/-- Witness for claim C8 at a concrete running status. -/
theorem claim_C8_witness :
    (start_workflow runningStatus sampleStart).response =
      StartResponse.rejected "Workflow is already running".data 400 ∧
    (start_workflow runningStatus sampleStart).status = runningStatus ∧
    (start_workflow runningStatus sampleStart).spawned = false :=
  claim_C8 runningStatus sampleStart rfl

end PostGen
